import Mathlib

/-!
Performance.h: binary layout of the player performance records.

`Performance.h` holds no executable code: it is a list of type aliases,
three enumerations and three record declarations whose comments document
the byte offsets of a compiled image.  This development embeds the
declarations as data and checks the documented offsets and sizes against
the usual C layout rule (members in declaration order, each at the next
multiple of its alignment, total size rounded up to the largest member
alignment), for a data model given as a parameter.
-/

namespace Performance

/-! ## C types -/

/-- The builtin C types that the header mentions, plus enumerations. -/
inductive Scalar where
  | signedChar
  | short
  | int
  | longLong
  | unsignedChar
  | unsignedShort
  | unsignedInt
  | unsignedLong
  | unsignedLongLong
  | float
  | enumeration (name : String)
  deriving DecidableEq, Repr

mutual
/-- A C type as it is used in a member declaration. -/
inductive CType where
  | scalar (s : Scalar)
  | pointer (pointee : CType)
  | array (elem : CType) (len : Nat)
  | record (members : Members)
/-- The members of a record in declaration order; `documented` is the
offset written in the comment that follows the member. -/
inductive Members where
  | nil
  | cons (name : String) (type : CType) (documented : Nat) (rest : Members)
end

/-- The sizes in bytes that a target gives to the builtin types.  Every
builtin type is naturally aligned: its alignment is its size. -/
structure DataModel where
  charSize : Nat
  shortSize : Nat
  intSize : Nat
  longSize : Nat
  longLongSize : Nat
  floatSize : Nat
  enumSize : Nat
  pointerSize : Nat
  deriving DecidableEq, Repr

/-- Size of a builtin type under a data model. -/
def DataModel.scalarSize (dm : DataModel) : Scalar → Nat
  | .signedChar => dm.charSize
  | .unsignedChar => dm.charSize
  | .short => dm.shortSize
  | .unsignedShort => dm.shortSize
  | .int => dm.intSize
  | .unsignedInt => dm.intSize
  | .unsignedLong => dm.longSize
  | .longLong => dm.longLongSize
  | .unsignedLongLong => dm.longLongSize
  | .float => dm.floatSize
  | .enumeration _ => dm.enumSize

/-- The least multiple of `a` that is at least `off` (`off` itself when
`a` is zero). -/
def alignUp (off a : Nat) : Nat :=
  if a = 0 then off else (off + a - 1) / a * a

mutual
/-- Alignment of a type: a scalar or pointer is aligned to its size, an
array to its element, a record to its most aligned member. -/
def alignofType (dm : DataModel) : CType → Nat
  | .scalar s => dm.scalarSize s
  | .pointer _ => dm.pointerSize
  | .array t _ => alignofType dm t
  | .record ms => membersAlign dm ms
/-- Largest alignment among the members (1 for no member). -/
def membersAlign (dm : DataModel) : Members → Nat
  | .nil => 1
  | .cons _ t _ rest => max (alignofType dm t) (membersAlign dm rest)
end

mutual
/-- Size of a type in bytes. -/
def sizeofType (dm : DataModel) : CType → Nat
  | .scalar s => dm.scalarSize s
  | .pointer _ => dm.pointerSize
  | .array t n => n * sizeofType dm t
  | .record ms => alignUp (membersEnd dm 0 ms) (membersAlign dm ms)
/-- First free byte after laying the members out from offset `off`. -/
def membersEnd (dm : DataModel) (off : Nat) : Members → Nat
  | .nil => off
  | .cons _ t _ rest =>
      membersEnd dm (alignUp off (alignofType dm t) + sizeofType dm t) rest
end

/-- Members with the offset that the layout rule gives each of them,
starting from offset `off`. -/
def layoutFrom (dm : DataModel) (off : Nat) : Members → List (String × Nat)
  | .nil => []
  | .cons n t _ rest =>
      (n, alignUp off (alignofType dm t)) ::
        layoutFrom dm (alignUp off (alignofType dm t) + sizeofType dm t) rest

/-- Computed offset of every member of a record (empty for other types). -/
def layout (dm : DataModel) : CType → List (String × Nat)
  | .record ms => layoutFrom dm 0 ms
  | _ => []

/-- Members with the number of padding bytes that the layout rule inserts
in front of each of them, starting from offset `off`. -/
def paddingFrom (dm : DataModel) (off : Nat) : Members → List (String × Nat)
  | .nil => []
  | .cons n t _ rest =>
      (n, alignUp off (alignofType dm t) - off) ::
        paddingFrom dm (alignUp off (alignofType dm t) + sizeofType dm t) rest

/-- Padding in front of every member of a record. -/
def padding (dm : DataModel) : CType → List (String × Nat)
  | .record ms => paddingFrom dm 0 ms
  | _ => []

/-- Members with the offset written in their comment. -/
def Members.documentedOffsets : Members → List (String × Nat)
  | .nil => []
  | .cons n _ d rest => (n, d) :: rest.documentedOffsets

/-- Documented offset of every member of a record. -/
def documentedLayout : CType → List (String × Nat)
  | .record ms => ms.documentedOffsets
  | _ => []

/-- Declared type of the member called `name`. -/
def Members.typeOf (name : String) : Members → Option CType
  | .nil => none
  | .cons n t _ rest => if n = name then some t else rest.typeOf name

/-- Computed offset of the member called `name`: `offsetof`. -/
def offsetOf (dm : DataModel) (t : CType) (name : String) : Option Nat :=
  (layout dm t).lookup name

/-- Size of the member called `name` of a record. -/
def memberSize (dm : DataModel) (t : CType) (name : String) : Option Nat :=
  match t with
  | .record ms => (ms.typeOf name).map (sizeofType dm)
  | _ => none

/-- Offset of the last byte of the member called `name`. -/
def memberLastByte (dm : DataModel) (t : CType) (name : String) : Option Nat :=
  match offsetOf dm t name, memberSize dm t name with
  | some o, some n => some (o + n - 1)
  | _, _ => none

/-! ## The declarations of `Performance.h` -/

/-- `typedef signed char int8_t;` -/
def int8_t : CType := .scalar .signedChar
/-- `typedef short int16_t;` -/
def int16_t : CType := .scalar .short
/-- `typedef int int32_t;` -/
def int32_t : CType := .scalar .int
/-- `typedef long long int64_t;` -/
def int64_t : CType := .scalar .longLong
/-- `typedef unsigned char uint8_t;` -/
def uint8_t : CType := .scalar .unsignedChar
/-- `typedef unsigned short uint16_t;` -/
def uint16_t : CType := .scalar .unsignedShort
/-- `typedef unsigned int uint32_t;` -/
def uint32_t : CType := .scalar .unsignedInt
/-- `typedef unsigned long long uint64_t;` -/
def uint64_t : CType := .scalar .unsignedLongLong
/-- `typedef uint8_t uchar;` -/
def uchar : CType := uint8_t
/-- `typedef uint16_t ushort;` -/
def ushort : CType := uint16_t
/-- `typedef uint32_t uint;` -/
def uint : CType := uint32_t
/-- `typedef uchar undefined1;` -/
def undefined1 : CType := uchar
/-- `typedef ushort undefined2;` -/
def undefined2 : CType := ushort
/-- `typedef uint undefined4;` -/
def undefined4 : CType := uint

/-- The alias `ulong`: `unsigned long` when `_WIN32` is defined,
`unsigned int` otherwise. -/
def ulong (win32 : Bool) : CType :=
  if win32 then .scalar .unsignedLong else .scalar .unsignedInt

/-- `typedef ulong undefined8;` -/
def undefined8 (win32 : Bool) : CType := ulong win32

/-- `typedef int32_t s32;` -/
def s32 : CType := int32_t
/-- `typedef unsigned int size_t;` -/
def size_t : CType := .scalar .unsignedInt
/-- The C builtin `float`. -/
def float : CType := .scalar .float

/-- The enumerators of `enmCtrlMode`. -/
inductive enmCtrlMode where
  | CTRL_MODE_WALK
  | CTRL_MODE_NORMAL
  deriving DecidableEq, Repr, Fintype

/-- Every enumerator of `enmCtrlMode`, in declaration order. -/
def enmCtrlMode.all : List enmCtrlMode := [.CTRL_MODE_WALK, .CTRL_MODE_NORMAL]

/-- Integer value of an enumerator, as written in the declaration. -/
def enmCtrlMode.toInt : enmCtrlMode → Int
  | .CTRL_MODE_WALK => 0
  | .CTRL_MODE_NORMAL => 1

/-- The enumerator with the given integer value, if there is one. -/
def enmCtrlMode.ofInt (v : Int) : Option enmCtrlMode :=
  enmCtrlMode.all.find? (fun m => m.toInt == v)

/-- The enumerators of `enmGearCtrl`. -/
inductive enmGearCtrl where
  | GEAR_CTRL_0
  deriving DecidableEq, Repr

/-- Integer value of an enumerator of `enmGearCtrl`. -/
def enmGearCtrl.toInt : enmGearCtrl → Int
  | .GEAR_CTRL_0 => 0

/-- The enumerators of `enmActionMode`. -/
inductive enmActionMode where
  | ACTION_MODE_0
  deriving DecidableEq, Repr

/-- Integer value of an enumerator of `enmActionMode`. -/
def enmActionMode.toInt : enmActionMode → Int
  | .ACTION_MODE_0 => 0

/-- The type `enmCtrlMode` as a member type. -/
def enmCtrlModeType : CType := .scalar (.enumeration "enmCtrlMode")

/-- The members of `struct stcData` with their commented offsets. -/
def stcDataMembers : Members :=
  .cons "f32Speed" (.array float 3) 0x00 <|
  .cons "f32Accele" (.array float 3) 0x0C <|
  .cons "f32RotateSpeed" float 0x18 <|
  .cons "f32RotateAccele" float 0x1C <|
  .cons "f32Grip" float 0x20 <|
  .cons "f32JumpSpeed" float 0x24 <|
  .cons "f32JumpAccele" float 0x28 <|
  .cons "f32Durability" float 0x2C <|
  .cons "u32Ability" uint32_t 0x30 <|
  .cons "f32MaxAgp" float 0x34 <|
  .cons "f32GCtrlDischargeSpeed" float 0x38 <|
  .cons "f32GDiveSpeedRate" float 0x3C <|
  .cons "f32GPTakeRate" float 0x40 <|
  .cons "f32GCtrlGpUseRate" float 0x44 <|
  .cons "f32GDiveGpUseRate" float 0x48 <|
  .cons "s32AttackEnableFrame" int32_t 0x4C <|
  .cons "s16RingCapacity" int16_t 0x50 <|
  .cons "s8TrickRank" int8_t 0x52 <|
  .cons "s8ItemRank" int8_t 0x53 <|
  .nil

/-- `struct stcData`. -/
def stcData : CType := .record stcDataMembers

/-- The comment on the closing brace of `stcData`: `total size: 0x54`. -/
def stcDataTotalSize : Nat := 0x54

/-- The members of `class clsGearCtrl`; for the two pad arrays the
documented offset is the first byte of the commented range. -/
def clsGearCtrlMembers : Members :=
  .cons "pad" (.array uint8_t 0xCC) 0x00 <|
  .cons "m_eCtrlMode" enmCtrlModeType 0xCC <|
  .cons "pad2" (.array uint8_t 0x44) 0xD0 <|
  .nil

/-- `class clsGearCtrl`. -/
def clsGearCtrl : CType := .record clsGearCtrlMembers

/-- The comment on the closing brace of `clsGearCtrl`: `total size: 0x110`. -/
def clsGearCtrlTotalSize : Nat := 0x110

/-- Last byte of the range commented on `pad`: `0x00 - 0xCB`. -/
def padLastByte : Nat := 0xCB

/-- Last byte of the range commented on `pad2`: `0xD0 - 0x10F`. -/
def pad2LastByte : Nat := 0x10F

/-- The data members of `class clsPrfm`.  The class has no base class and
no virtual function, and its member function `getDataPtr` is only
declared, so the data members are all that the object holds. -/
def clsPrfmMembers : Members :=
  .cons "m_sBase" stcData 0x00 <|
  .cons "m_sWalk" stcData 0x54 <|
  .cons "m_sData" stcData 0xA8 <|
  .cons "m_pcGearCtrl" (.pointer clsGearCtrl) 0xFC <|
  .cons "m_f32WeightRate" float 0x100 <|
  .cons "m_f32InfiniGpFrame" float 0x104 <|
  .cons "m_f32AdjustSpeedRate" float 0x108 <|
  .cons "m_f32AdjustAcceleRate" float 0x10C <|
  .nil

/-- `class clsPrfm`. -/
def clsPrfm : CType := .record clsPrfmMembers

/-- The comment on the closing brace of `clsPrfm`: `total size: 0x110`. -/
def clsPrfmTotalSize : Nat := 0x110

/-! ## Data models -/

/-- The target of the header: 32-bit, with 4-byte `int`, `long`, `float`,
enumerations and pointers. -/
def target : DataModel :=
  ⟨1, 2, 4, 4, 8, 4, 4, 4⟩

/-- 32-bit Windows (ILP32). -/
def windows32 : DataModel :=
  ⟨1, 2, 4, 4, 8, 4, 4, 4⟩

/-- 64-bit Windows (LLP64): `long` stays 4 bytes, pointers are 8. -/
def windows64 : DataModel :=
  ⟨1, 2, 4, 4, 8, 4, 4, 8⟩

/-- A data model with the pointer size replaced. -/
def DataModel.withPointerSize (dm : DataModel) (p : Nat) : DataModel :=
  { dm with pointerSize := p }

/-- The target with 8-byte, 8-aligned pointers and nothing else changed. -/
def target64 : DataModel := target.withPointerSize 8

/-! ## Sizes -/

/-- C2: with 1-byte char, 2-byte short and 4-byte int and float, each
naturally aligned, the declared members of `stcData` give a size of exactly
0x54 bytes, the total size written on its closing brace. -/
theorem stcData_size (dm : DataModel) (hc : dm.charSize = 1) (hs : dm.shortSize = 2)
    (hi : dm.intSize = 4) (hf : dm.floatSize = 4) :
    sizeofType dm stcData = 0x54 ∧ sizeofType dm stcData = stcDataTotalSize := by
  simp [stcData, stcDataMembers, stcDataTotalSize, sizeofType, membersEnd, membersAlign,
    alignofType, alignUp, DataModel.scalarSize, float, uint32_t, int32_t, int16_t, int8_t,
    hc, hs, hi, hf]

/-- The hypotheses of `stcData_size` hold for the target. -/
theorem stcData_size_witness :
    (target.charSize = 1 ∧ target.shortSize = 2 ∧ target.intSize = 4 ∧ target.floatSize = 4) ∧
      sizeofType target stcData = 0x54 ∧ sizeofType target stcData = stcDataTotalSize :=
  ⟨⟨rfl, rfl, rfl, rfl⟩, stcData_size target rfl rfl rfl rfl⟩

/-- C3: with the data model of C2 and 4-byte pointers, the declared data
members of `clsPrfm` (three `stcData`, one pointer, four floats) give a size
of exactly 0x110 bytes, which is three times the computed size of `stcData`
plus the pointer and the four floats. -/
theorem clsPrfm_size (dm : DataModel) (hc : dm.charSize = 1) (hs : dm.shortSize = 2)
    (hi : dm.intSize = 4) (hf : dm.floatSize = 4) (hp : dm.pointerSize = 4) :
    sizeofType dm clsPrfm = 0x110 ∧ sizeofType dm clsPrfm = clsPrfmTotalSize ∧
      sizeofType dm clsPrfm =
        3 * sizeofType dm stcData + dm.pointerSize + 4 * dm.floatSize := by
  simp [clsPrfm, clsPrfmMembers, clsPrfmTotalSize, stcData, stcDataMembers, sizeofType,
    membersEnd, membersAlign, alignofType, alignUp, DataModel.scalarSize, float, uint32_t,
    int32_t, int16_t, int8_t, hc, hs, hi, hf, hp]

/-- The hypotheses of `clsPrfm_size` hold for the target. -/
theorem clsPrfm_size_witness :
    (target.charSize = 1 ∧ target.shortSize = 2 ∧ target.intSize = 4 ∧
        target.floatSize = 4 ∧ target.pointerSize = 4) ∧
      sizeofType target clsPrfm = 0x110 ∧ sizeofType target clsPrfm = clsPrfmTotalSize ∧
      sizeofType target clsPrfm =
        3 * sizeofType target stcData + target.pointerSize + 4 * target.floatSize :=
  ⟨⟨rfl, rfl, rfl, rfl, rfl⟩, clsPrfm_size target rfl rfl rfl rfl rfl⟩

/-- C1: under the target data model the declared members of `clsGearCtrl`
(`pad[0xCC]`, `m_eCtrlMode`, `pad2[0x44]`) give a size of 0x114 bytes, not
the 0x110 of the closing comment: `pad2` starts at 0xD0 as commented but is
0x44 bytes long, so its last byte is 0x113 and not the commented 0x10F. -/
theorem clsGearCtrl_size_target :
    sizeofType target clsGearCtrl = 0x114 ∧
      sizeofType target clsGearCtrl ≠ clsGearCtrlTotalSize ∧
      offsetOf target clsGearCtrl "pad2" = some 0xD0 ∧
      memberSize target clsGearCtrl "pad2" = some 0x44 ∧
      memberLastByte target clsGearCtrl "pad2" = some 0x113 ∧
      memberLastByte target clsGearCtrl "pad2" ≠ some pad2LastByte := by
  simp [clsGearCtrl, clsGearCtrlMembers, clsGearCtrlTotalSize, pad2LastByte, memberLastByte,
    offsetOf, memberSize, Members.typeOf, layout, layoutFrom, List.lookup, sizeofType,
    membersEnd, membersAlign, alignofType, alignUp, DataModel.scalarSize, uint8_t,
    enmCtrlModeType, target]

/-! ## Offsets -/

/-- C4: with 1-byte char, 2-byte short and 4-byte int and float, the layout
rule puts each of the 19 members of `stcData` at the offset written in its
comment, from `f32Speed` at 0x00 to `s8ItemRank` at 0x53. -/
theorem stcData_offsets (dm : DataModel) (hc : dm.charSize = 1) (hs : dm.shortSize = 2)
    (hi : dm.intSize = 4) (hf : dm.floatSize = 4) :
    layout dm stcData =
        [("f32Speed", 0x00), ("f32Accele", 0x0C), ("f32RotateSpeed", 0x18),
         ("f32RotateAccele", 0x1C), ("f32Grip", 0x20), ("f32JumpSpeed", 0x24),
         ("f32JumpAccele", 0x28), ("f32Durability", 0x2C), ("u32Ability", 0x30),
         ("f32MaxAgp", 0x34), ("f32GCtrlDischargeSpeed", 0x38), ("f32GDiveSpeedRate", 0x3C),
         ("f32GPTakeRate", 0x40), ("f32GCtrlGpUseRate", 0x44), ("f32GDiveGpUseRate", 0x48),
         ("s32AttackEnableFrame", 0x4C), ("s16RingCapacity", 0x50), ("s8TrickRank", 0x52),
         ("s8ItemRank", 0x53)] ∧
      layout dm stcData = documentedLayout stcData ∧
      (documentedLayout stcData).length = 19 ∧
      ∀ f ∈ documentedLayout stcData, offsetOf dm stcData f.1 = some f.2 := by
  simp [offsetOf, layout, layoutFrom, documentedLayout, Members.documentedOffsets, List.lookup,
    stcData, stcDataMembers, sizeofType, alignofType, alignUp, DataModel.scalarSize, float,
    uint32_t, int32_t, int16_t, int8_t, hc, hs, hi, hf]

/-- The hypotheses of `stcData_offsets` hold for the target; the example of the specification, `f32RotateSpeed` at 0x18, follows. -/
theorem stcData_offsets_witness :
    (target.charSize = 1 ∧ target.shortSize = 2 ∧ target.intSize = 4 ∧ target.floatSize = 4) ∧
      offsetOf target stcData "f32RotateSpeed" = some 0x18 :=
  ⟨⟨rfl, rfl, rfl, rfl⟩,
    (stcData_offsets target rfl rfl rfl rfl).2.2.2 ("f32RotateSpeed", 0x18)
      (by simp [documentedLayout, Members.documentedOffsets, stcData, stcDataMembers])⟩

/-- C5: with the data model of C4 and 4-byte pointers, the layout rule puts
each data member of `clsPrfm` at the offset written in its comment:
`m_sBase` 0x00, `m_sWalk` 0x54, `m_sData` 0xA8, `m_pcGearCtrl` 0xFC and the
four floats at 0x100, 0x104, 0x108 and 0x10C. -/
theorem clsPrfm_offsets (dm : DataModel) (hc : dm.charSize = 1) (hs : dm.shortSize = 2)
    (hi : dm.intSize = 4) (hf : dm.floatSize = 4) (hp : dm.pointerSize = 4) :
    layout dm clsPrfm =
        [("m_sBase", 0x00), ("m_sWalk", 0x54), ("m_sData", 0xA8), ("m_pcGearCtrl", 0xFC),
         ("m_f32WeightRate", 0x100), ("m_f32InfiniGpFrame", 0x104),
         ("m_f32AdjustSpeedRate", 0x108), ("m_f32AdjustAcceleRate", 0x10C)] ∧
      layout dm clsPrfm = documentedLayout clsPrfm ∧
      ∀ f ∈ documentedLayout clsPrfm, offsetOf dm clsPrfm f.1 = some f.2 := by
  simp [offsetOf, layout, layoutFrom, documentedLayout, Members.documentedOffsets, List.lookup,
    clsPrfm, clsPrfmMembers, stcData, stcDataMembers, sizeofType, membersEnd, membersAlign,
    alignofType, alignUp, DataModel.scalarSize, float, uint32_t, int32_t, int16_t, int8_t,
    hc, hs, hi, hf, hp]

/-- The hypotheses of `clsPrfm_offsets` hold for the target; the example of the specification, `m_pcGearCtrl` at 0xFC, follows. -/
theorem clsPrfm_offsets_witness :
    (target.charSize = 1 ∧ target.shortSize = 2 ∧ target.intSize = 4 ∧
        target.floatSize = 4 ∧ target.pointerSize = 4) ∧
      offsetOf target clsPrfm "m_pcGearCtrl" = some 0xFC :=
  ⟨⟨rfl, rfl, rfl, rfl, rfl⟩,
    (clsPrfm_offsets target rfl rfl rfl rfl rfl).2.2 ("m_pcGearCtrl", 0xFC)
      (by simp [documentedLayout, Members.documentedOffsets, clsPrfm, clsPrfmMembers])⟩

/-- C6: with 1-byte char and a 4-byte enumeration, `m_eCtrlMode` of
`clsGearCtrl` is at offset 0xCC: `pad` starts at 0x00 and is 0xCC bytes long,
so it covers 0x00 through 0xCB, and no padding byte is inserted in front of
`m_eCtrlMode`. -/
theorem clsGearCtrl_ctrlMode_offset (dm : DataModel) (hc : dm.charSize = 1)
    (he : dm.enumSize = 4) :
    offsetOf dm clsGearCtrl "m_eCtrlMode" = some 0xCC ∧
      (documentedLayout clsGearCtrl).lookup "m_eCtrlMode" = some 0xCC ∧
      memberSize dm clsGearCtrl "m_eCtrlMode" = some 4 ∧
      offsetOf dm clsGearCtrl "pad" = some 0x00 ∧
      memberSize dm clsGearCtrl "pad" = some 0xCC ∧
      memberLastByte dm clsGearCtrl "pad" = some 0xCB ∧
      memberLastByte dm clsGearCtrl "pad" = some padLastByte ∧
      (padding dm clsGearCtrl).lookup "m_eCtrlMode" = some 0 := by
  simp [offsetOf, memberSize, memberLastByte, Members.typeOf, layout, layoutFrom, padding,
    paddingFrom, documentedLayout, Members.documentedOffsets, List.lookup, padLastByte,
    clsGearCtrl, clsGearCtrlMembers, sizeofType, alignofType, alignUp, DataModel.scalarSize,
    uint8_t, enmCtrlModeType, hc, he]

/-- The hypotheses of `clsGearCtrl_ctrlMode_offset` hold for the target. -/
theorem clsGearCtrl_ctrlMode_offset_witness :
    (target.charSize = 1 ∧ target.enumSize = 4) ∧
      offsetOf target clsGearCtrl "m_eCtrlMode" = some 0xCC :=
  ⟨⟨rfl, rfl⟩, (clsGearCtrl_ctrlMode_offset target rfl rfl).1⟩

/-! ## Aliases -/

/-- C7, as stated, fails: the type that the `_WIN32` branch selects for
`ulong` has, under either Windows data model, the same size as the type of
the other branch on the target. -/
theorem ulong_width_same_on_windows_and_target :
    ¬ (sizeofType windows32 (ulong true) ≠ sizeofType target (ulong false)) ∧
      ¬ (sizeofType windows64 (ulong true) ≠ sizeofType target (ulong false)) := by
  simp [ulong, sizeofType, DataModel.scalarSize, windows32, windows64, target]

/-- C7, amended: the two branches select different types for `ulong`
(`unsigned long` under `_WIN32`, `unsigned int` otherwise), but when `long`
is 4 bytes on the Windows side and `int` is 4 bytes on the other side, both
are 4 bytes wide. -/
theorem ulong_branches (w t : DataModel) (hw : w.longSize = 4) (ht : t.intSize = 4) :
    ulong true = .scalar .unsignedLong ∧ ulong false = .scalar .unsignedInt ∧
      ulong true ≠ ulong false ∧
      sizeofType w (ulong true) = 4 ∧ sizeofType t (ulong false) = 4 := by
  simp [ulong, sizeofType, DataModel.scalarSize, hw, ht]

/-- The hypotheses of `ulong_branches` hold for 64-bit Windows and the target. -/
theorem ulong_branches_witness :
    (windows64.longSize = 4 ∧ target.intSize = 4) ∧
      sizeofType windows64 (ulong true) = 4 ∧ sizeofType target (ulong false) = 4 :=
  ⟨⟨rfl, rfl⟩, (ulong_branches windows64 target rfl rfl).2.2.2⟩

/-- C8: `undefined8` resolves to `ulong`, which is 4 bytes wide on the
target and on both Windows data models, not 8; `undefined1`, `undefined2`
and `undefined4` are 1, 2 and 4 bytes wide. -/
theorem undefined8_width :
    sizeofType target (undefined8 false) = 4 ∧
      sizeofType windows32 (undefined8 true) = 4 ∧
      sizeofType windows64 (undefined8 true) = 4 ∧
      sizeofType target undefined1 = 1 ∧
      sizeofType target undefined2 = 2 ∧
      sizeofType target undefined4 = 4 := by
  simp [undefined8, ulong, undefined1, undefined2, undefined4, uchar, ushort, uint, uint8_t,
    uint16_t, uint32_t, sizeofType, DataModel.scalarSize, windows32, windows64, target]

/-! ## Enumerations -/

/-- C9: `enmCtrlMode` has exactly two enumerators, `CTRL_MODE_WALK` with
value 0 and `CTRL_MODE_NORMAL` with value 1; the values are distinct, the
encoding is injective, and decoding 0 or 1 (or any encoded value) gives the
enumerator back. -/
theorem enmCtrlMode_encoding :
    enmCtrlMode.CTRL_MODE_WALK.toInt = 0 ∧
      enmCtrlMode.CTRL_MODE_NORMAL.toInt = 1 ∧
      Fintype.card enmCtrlMode = 2 ∧
      (∀ m : enmCtrlMode, m = .CTRL_MODE_WALK ∨ m = .CTRL_MODE_NORMAL) ∧
      enmCtrlMode.CTRL_MODE_WALK.toInt ≠ enmCtrlMode.CTRL_MODE_NORMAL.toInt ∧
      Function.Injective enmCtrlMode.toInt ∧
      enmCtrlMode.ofInt 0 = some .CTRL_MODE_WALK ∧
      enmCtrlMode.ofInt 1 = some .CTRL_MODE_NORMAL ∧
      (∀ m : enmCtrlMode, enmCtrlMode.ofInt m.toInt = some m) ∧
      (∀ v : Int, v ≠ 0 → v ≠ 1 → enmCtrlMode.ofInt v = none) := by
  refine ⟨rfl, rfl, rfl, ?_, by decide, ?_, rfl, rfl, ?_, ?_⟩
  · intro m; cases m <;> simp
  · intro a b h; cases a <;> cases b <;> simp_all [enmCtrlMode.toInt]
  · intro m; cases m <;> rfl
  · intro v h0 h1
    have h0' : ((0 : Int) == v) = false := by simpa using fun h => h0 h.symm
    have h1' : ((1 : Int) == v) = false := by simpa using fun h => h1 h.symm
    simp only [enmCtrlMode.ofInt, enmCtrlMode.all, enmCtrlMode.toInt, List.find?, h0', h1']

/-! ## Dependence on the pointer width -/

/-- Aligning never moves an offset down. -/
theorem le_alignUp (off a : Nat) : off ≤ alignUp off a := by
  unfold alignUp
  split
  · exact Nat.le_refl off
  · rename_i ha
    have hpos : 0 < a := Nat.pos_of_ne_zero ha
    have hdm := Nat.div_add_mod (off + a - 1) a
    have hlt := Nat.mod_lt (off + a - 1) hpos
    have hcomm : (off + a - 1) / a * a = a * ((off + a - 1) / a) := Nat.mul_comm _ _
    omega

/-- Aligning to 4 in closed form. -/
theorem alignUp_four (off : Nat) : alignUp off 4 = (off + 3) / 4 * 4 := by
  simp [alignUp]

/-- Size and alignment of `stcData` when int and float are 4 bytes. -/
theorem stcData_sizeof_alignof (dm : DataModel) (hc : dm.charSize = 1)
    (hs : dm.shortSize = 2) (hi : dm.intSize = 4) (hf : dm.floatSize = 4) :
    sizeofType dm stcData = 84 ∧ alignofType dm stcData = 4 := by
  simp [stcData, stcDataMembers, sizeofType, membersEnd, membersAlign, alignofType, alignUp,
    DataModel.scalarSize, float, uint32_t, int32_t, int16_t, int8_t, hc, hs, hi, hf]

/-- With pointers wider than 4 bytes the first float of `clsPrfm` is not at
its commented offset 0x100 and the size exceeds 0x110. -/
theorem clsPrfm_wide_pointer_bounds (dm : DataModel) (hc : dm.charSize = 1)
    (hs : dm.shortSize = 2) (hi : dm.intSize = 4) (hf : dm.floatSize = 4)
    (hp : 4 < dm.pointerSize) :
    offsetOf dm clsPrfm "m_f32WeightRate" ≠ some 0x100 ∧ 0x110 < sizeofType dm clsPrfm := by
  have h1 := le_alignUp 252 dm.pointerSize
  obtain ⟨hsz, hal⟩ := stcData_sizeof_alignof dm hc hs hi hf
  constructor
  · simp only [offsetOf, layout, layoutFrom, clsPrfm, clsPrfmMembers, hsz, hal]
    simp [List.lookup, sizeofType, alignofType, alignUp_four, DataModel.scalarSize, float, hf]
    omega
  · have h2 := le_alignUp (membersEnd dm 0 clsPrfmMembers) (membersAlign dm clsPrfmMembers)
    have h3 : 0x110 < membersEnd dm 0 clsPrfmMembers := by
      simp only [clsPrfmMembers, membersEnd, hsz, hal]
      simp [sizeofType, alignofType, alignUp_four, DataModel.scalarSize, float, hf]
      omega
    simp only [clsPrfm, sizeofType]
    omega

/-- With 4-byte pointers `clsPrfm` has its commented offsets and size. -/
theorem clsPrfm_layout_pointer4 (dm : DataModel) (hc : dm.charSize = 1)
    (hs : dm.shortSize = 2) (hi : dm.intSize = 4) (hf : dm.floatSize = 4)
    (hp : dm.pointerSize = 4) :
    layout dm clsPrfm = documentedLayout clsPrfm ∧ sizeofType dm clsPrfm = clsPrfmTotalSize := by
  simp [layout, layoutFrom, documentedLayout, Members.documentedOffsets, clsPrfm,
    clsPrfmMembers, clsPrfmTotalSize, stcData, stcDataMembers, sizeofType, membersEnd,
    membersAlign, alignofType, alignUp, DataModel.scalarSize, float, uint32_t, int32_t,
    int16_t, int8_t, hc, hs, hi, hf, hp]

/-- Offsets and size of `clsPrfm` with 8-byte pointers. -/
theorem clsPrfm_layout_pointer8 (dm : DataModel) (hc : dm.charSize = 1)
    (hs : dm.shortSize = 2) (hi : dm.intSize = 4) (hf : dm.floatSize = 4)
    (hp : dm.pointerSize = 8) :
    layout dm clsPrfm =
        [("m_sBase", 0x00), ("m_sWalk", 0x54), ("m_sData", 0xA8), ("m_pcGearCtrl", 0x100),
         ("m_f32WeightRate", 0x108), ("m_f32InfiniGpFrame", 0x10C),
         ("m_f32AdjustSpeedRate", 0x110), ("m_f32AdjustAcceleRate", 0x114)] ∧
      sizeofType dm clsPrfm = 0x118 := by
  simp [layout, layoutFrom, clsPrfm, clsPrfmMembers, stcData, stcDataMembers, sizeofType,
    membersEnd, membersAlign, alignofType, alignUp, DataModel.scalarSize, float, uint32_t,
    int32_t, int16_t, int8_t, hc, hs, hi, hf, hp]

/-- C10: the documented layout of `clsPrfm` depends on the pointer width.
With 8-byte, 8-aligned pointers and the other sizes of the target unchanged,
`m_pcGearCtrl` is at 0x100, the four floats are at 0x108, 0x10C, 0x110 and
0x114 and the size is 0x118, so none of the commented offsets from 0xFC
onward and not the commented size holds; with 4-byte pointers all of them
hold; the three `stcData` members are at 0x00, 0x54 and 0xA8 in both; and
among pointers of at least 4 bytes, the commented offsets and the size 0x110
hold for 4-byte pointers only. -/
theorem clsPrfm_layout_depends_on_pointer_width (dm : DataModel) (hc : dm.charSize = 1)
    (hs : dm.shortSize = 2) (hi : dm.intSize = 4) (hf : dm.floatSize = 4) :
    layout (dm.withPointerSize 8) clsPrfm =
        [("m_sBase", 0x00), ("m_sWalk", 0x54), ("m_sData", 0xA8), ("m_pcGearCtrl", 0x100),
         ("m_f32WeightRate", 0x108), ("m_f32InfiniGpFrame", 0x10C),
         ("m_f32AdjustSpeedRate", 0x110), ("m_f32AdjustAcceleRate", 0x114)] ∧
      sizeofType (dm.withPointerSize 8) clsPrfm = 0x118 ∧
      (∀ f ∈ (documentedLayout clsPrfm).drop 3,
        offsetOf (dm.withPointerSize 8) clsPrfm f.1 ≠ some f.2) ∧
      sizeofType (dm.withPointerSize 8) clsPrfm ≠ clsPrfmTotalSize ∧
      layout (dm.withPointerSize 4) clsPrfm = documentedLayout clsPrfm ∧
      sizeofType (dm.withPointerSize 4) clsPrfm = clsPrfmTotalSize ∧
      (layout (dm.withPointerSize 8) clsPrfm).take 3 =
        [("m_sBase", 0x00), ("m_sWalk", 0x54), ("m_sData", 0xA8)] ∧
      (layout (dm.withPointerSize 4) clsPrfm).take 3 =
        [("m_sBase", 0x00), ("m_sWalk", 0x54), ("m_sData", 0xA8)] ∧
      ∀ p, 4 ≤ p →
        ((layout (dm.withPointerSize p) clsPrfm = documentedLayout clsPrfm ↔ p = 4) ∧
          (sizeofType (dm.withPointerSize p) clsPrfm = clsPrfmTotalSize ↔ p = 4)) := by
  obtain ⟨h4l, h4s⟩ := clsPrfm_layout_pointer4 (dm.withPointerSize 4) hc hs hi hf rfl
  obtain ⟨h8l, h8s⟩ := clsPrfm_layout_pointer8 (dm.withPointerSize 8) hc hs hi hf rfl
  have hdoc : documentedLayout clsPrfm =
      [("m_sBase", 0x00), ("m_sWalk", 0x54), ("m_sData", 0xA8), ("m_pcGearCtrl", 0xFC),
       ("m_f32WeightRate", 0x100), ("m_f32InfiniGpFrame", 0x104),
       ("m_f32AdjustSpeedRate", 0x108), ("m_f32AdjustAcceleRate", 0x10C)] := by
    simp [documentedLayout, Members.documentedOffsets, clsPrfm, clsPrfmMembers]
  refine ⟨h8l, h8s, ?_, ?_, h4l, h4s, ?_, ?_, ?_⟩
  · unfold offsetOf
    rw [h8l, hdoc]
    simp [List.lookup]
  · rw [h8s]
    simp [clsPrfmTotalSize]
  · rw [h8l]
    rfl
  · rw [h4l, hdoc]
    rfl
  · intro p hp
    have hwide : 4 < p → offsetOf (dm.withPointerSize p) clsPrfm "m_f32WeightRate" ≠ some 0x100 ∧
        0x110 < sizeofType (dm.withPointerSize p) clsPrfm := fun h =>
      clsPrfm_wide_pointer_bounds (dm.withPointerSize p) hc hs hi hf h
    constructor
    · constructor
      · intro hl
        by_contra hne
        have hlt : 4 < p := by omega
        apply (hwide hlt).1
        unfold offsetOf
        rw [hl, hdoc]
        simp [List.lookup]
      · rintro rfl
        exact h4l
    · constructor
      · intro hsz
        by_contra hne
        have hlt : 4 < p := by omega
        have := (hwide hlt).2
        simp [clsPrfmTotalSize] at hsz
        omega
      · rintro rfl
        exact h4s

/-- The hypotheses of `clsPrfm_layout_depends_on_pointer_width` hold for the target. -/
theorem clsPrfm_layout_depends_on_pointer_width_witness :
    (target.charSize = 1 ∧ target.shortSize = 2 ∧ target.intSize = 4 ∧ target.floatSize = 4) ∧
      sizeofType target64 clsPrfm = 0x118 ∧
      sizeofType (target.withPointerSize 4) clsPrfm = clsPrfmTotalSize :=
  ⟨⟨rfl, rfl, rfl, rfl⟩,
    (clsPrfm_layout_depends_on_pointer_width target rfl rfl rfl rfl).2.1,
    (clsPrfm_layout_depends_on_pointer_width target rfl rfl rfl rfl).2.2.2.2.2.1⟩

end Performance
